import Mathlib

/-!
Verification development for the ISTHT Founty inventory Telegram bot
(`bot_final_improved_1.py`, with the diverging export of
`bot_final_complete.py` modelled separately).

The Python program is shallowly embedded: the sqlite tables become lists of
rows inside a `Store` structure, the per-user `context.user_data` dict becomes
the `Draft` structure of optional fields, and the `ConversationHandler` state
map becomes a total step function on a `World`.  Machine integers are `Int`;
SQL `AVG`/percentages are `ℚ`.  A Python handler that raises (KeyError on a
missing draft key, ValueError escaping the `try`) leaves the conversation
state unchanged in python-telegram-bot, but keeps any mutation it already made
to `user_data`; the embedding reproduces that.  `conn.close()` without
`conn.commit()` rolls the open transaction back, which is modelled by
returning the original store on the early-exit path of
`add_inventory_entry`.
-/

namespace InventoryBot

/-! ## Python string primitives

Structural stand-ins for the Python string operations the handlers use,
written over `List Char` so that concrete runs reduce in the kernel.
-/

/-- Python `str.replace(pat, "")` (remove every non-overlapping occurrence of
`pat`, scanning left to right), on character lists, with explicit fuel. -/
def removeAllAux : Nat → List Char → List Char → List Char
  | 0, _, s => s
  | _ + 1, _, [] => []
  | fuel + 1, pat, c :: rest =>
    if pat ≠ [] ∧ pat.isPrefixOf (c :: rest) then
      removeAllAux fuel pat ((c :: rest).drop pat.length)
    else
      c :: removeAllAux fuel pat rest

/-- Python `s.replace(pat, "")`. -/
def pyReplace (s pat : String) : String :=
  ⟨removeAllAux s.data.length pat.data s.data⟩

/-- Python `s.startswith(pat)`. -/
def pyStarts (s pat : String) : Bool :=
  pat.data.isPrefixOf s.data

/-- Python `s.strip()` (whitespace trimmed from both ends). -/
def pyStrip (s : String) : String :=
  ⟨((s.data.dropWhile Char.isWhitespace).reverse.dropWhile Char.isWhitespace).reverse⟩

/-- Decimal digit run to a natural number. -/
def digitsToNat (l : List Char) : Nat :=
  l.foldl (fun a c => a * 10 + (c.toNat - 48)) 0

/-- Python `int(s)` after `strip`: an optional sign followed by at least one
decimal digit, else `ValueError` (`none`). -/
def toIntPy (s : String) : Option Int :=
  let t := (pyStrip s).data
  let neg : Bool := t.headD ' ' = '-'
  let core := if t.headD ' ' = '-' ∨ t.headD ' ' = '+' then t.tail else t
  if core ≠ [] ∧ core.all Char.isDigit then
    some (if neg then -(digitsToNat core : Int) else (digitsToNat core : Int))
  else
    none

/-- Python `s.split('#')`. -/
def splitHash : List Char → List (List Char)
  | [] => [[]]
  | c :: rest =>
    if c = '#' then [] :: splitHash rest
    else
      match splitHash rest with
      | [] => [[c]]
      | h :: t => (c :: h) :: t

/-- Character class of the emoji regex in `add_material_handler`. -/
def isEmojiChar (c : Char) : Bool :=
  (0x1F600 ≤ c.toNat ∧ c.toNat ≤ 0x1F64F) ∨
  (0x1F300 ≤ c.toNat ∧ c.toNat ≤ 0x1F5FF) ∨
  (0x1F680 ≤ c.toNat ∧ c.toNat ≤ 0x1F6FF) ∨
  (0x1F1E0 ≤ c.toNat ∧ c.toNat ≤ 0x1F1FF) ∨
  (0x2702 ≤ c.toNat ∧ c.toNat ≤ 0x27B0) ∨
  (0x24C2 ≤ c.toNat ∧ c.toNat ≤ 0x1F251)

/-- Leftmost maximal run of emoji characters (`re.search` of `[class]+`). -/
def findEmojiRun : List Char → Option (List Char)
  | [] => none
  | c :: rest =>
    if isEmojiChar c then some (c :: rest.takeWhile isEmojiChar)
    else findEmojiRun rest

/-! ## Data model: the sqlite tables of `DatabaseManager` -/

/-- A row of the `users` table (`INSERT OR REPLACE` keyed by `user_id`). -/
structure UserRow where
  user_id : Int
  username : String
  first_name : String
  last_name : String
  deriving DecidableEq

/-- A row of the `rooms` table (`room_name` UNIQUE, id AUTOINCREMENT). -/
structure RoomRow where
  room_id : Int
  room_name : String
  room_type : String
  location : String
  deriving DecidableEq

/-- A row of the `materials` table (`material_name` UNIQUE). -/
structure MaterialRow where
  material_id : Int
  material_name : String
  emoji : String
  category : String
  deriving DecidableEq

/-- A row of the `chair_colors` table (`color_name` UNIQUE). -/
structure ColorRow where
  color_id : Int
  color_name : String
  color_code : String
  deriving DecidableEq

/-- A row of the append-only `inventory_entries` table.  `timestamp` is the
abstract clock value at insertion time. -/
structure EntryRow where
  entry_id : Int
  user_id : Int
  room_id : Int
  material_id : Int
  color_id : Option Int
  total_count : Int
  broken_count : Int
  good_count : Int
  condition : String
  location_details : String
  timestamp : Int
  deriving DecidableEq

/-- A row of the `feedback` table. -/
structure FeedbackRow where
  feedback_id : Int
  user_id : Int
  feedback_text : String
  timestamp : Int
  deriving DecidableEq

/-- The whole database.  The `next_*` counters model the AUTOINCREMENT
rowid sequences. -/
structure Store where
  users : List UserRow
  rooms : List RoomRow
  materials : List MaterialRow
  chair_colors : List ColorRow
  entries : List EntryRow
  feedback : List FeedbackRow
  next_room_id : Int
  next_material_id : Int
  next_color_id : Int
  next_entry_id : Int
  next_feedback_id : Int
  deriving DecidableEq

/-! ## Store operations (`DatabaseManager` methods) -/

/-- `SELECT room_id FROM rooms WHERE room_name = ?` + `fetchone`. -/
def lookupRoom (rooms : List RoomRow) (name : String) : Option RoomRow :=
  rooms.find? (fun r => r.room_name == name)

/-- `SELECT material_id FROM materials WHERE material_name = ?` + `fetchone`. -/
def lookupMaterial (materials : List MaterialRow) (name : String) : Option MaterialRow :=
  materials.find? (fun m => m.material_name == name)

/-- `add_user`: `INSERT OR REPLACE INTO users` keyed by `user_id`. -/
def add_user (db : Store) (u : UserRow) : Store :=
  { db with users := u :: db.users.filter (fun v => v.user_id ≠ u.user_id) }

/-- `add_inventory_entry` (improved variant; the `bot_final_complete.py` one
is identical except that it lacks the `location` argument).  The room is
looked up and auto-created when missing; if the material is then absent the
connection is closed without `commit`, rolling the room insert back, so the
original store is returned with `False`.  Otherwise the entry row (with
`good_count = total - broken`) is inserted and everything is committed. -/
def add_inventory_entry (db : Store) (user_id : Int) (room_name material_name : String)
    (total broken : Int) (condition : String) (location : String)
    (color_id : Option Int) (now : Int) : Store × Bool :=
  let pr : Store × Int :=
    match lookupRoom db.rooms room_name with
    | some r => (db, r.room_id)
    | none =>
      ({ db with
          rooms := db.rooms ++ [⟨db.next_room_id, room_name, "", ""⟩],
          next_room_id := db.next_room_id + 1 },
       db.next_room_id)
  let pending := pr.1
  let room_id := pr.2
  match lookupMaterial pending.materials material_name with
  | none => (db, false)
  | some m =>
    let good_count := total - broken
    ({ pending with
        entries := pending.entries ++
          [⟨pending.next_entry_id, user_id, room_id, m.material_id, color_id,
            total, broken, good_count, condition, location, now⟩],
        next_entry_id := pending.next_entry_id + 1 },
     true)

/-- Stable sort of a list of names (`ORDER BY` a text column ascending). -/
def sortByKey {α : Type} (key : α → String) (l : List α) : List α :=
  List.insertionSort (fun a b => key a ≤ key b) l

/-- `get_rooms`: room names ordered by name. -/
def get_rooms (db : Store) : List String :=
  (sortByKey (fun r => r.room_name) db.rooms).map (fun r => r.room_name)

/-- `get_materials`: (name, emoji) pairs ordered by name. -/
def get_materials (db : Store) : List (String × String) :=
  (sortByKey (fun m => m.material_name) db.materials).map
    (fun m => (m.material_name, m.emoji))

/-- `get_chair_colors`: color rows ordered by name. -/
def get_chair_colors (db : Store) : List ColorRow :=
  sortByKey (fun c => c.color_name) db.chair_colors

/-- `add_chair_color`: fails (IntegrityError) on a duplicate name. -/
def add_chair_color (db : Store) (name code : String) : Store × Bool :=
  if db.chair_colors.any (fun c => c.color_name == name) then (db, false)
  else
    ({ db with
        chair_colors := db.chair_colors ++ [⟨db.next_color_id, name, code⟩],
        next_color_id := db.next_color_id + 1 },
     true)

/-- `update_chair_color`: true iff some row had the id. -/
def update_chair_color (db : Store) (id : Int) (name code : String) : Store × Bool :=
  (({ db with
      chair_colors := db.chair_colors.map
        (fun c => if c.color_id = id then { c with color_name := name, color_code := code } else c) }),
   db.chair_colors.any (fun c => c.color_id == id))

/-- `delete_chair_color`: true iff some row was deleted. -/
def delete_chair_color (db : Store) (id : Int) : Store × Bool :=
  (({ db with chair_colors := db.chair_colors.filter (fun c => c.color_id ≠ id) }),
   db.chair_colors.any (fun c => c.color_id == id))

/-- `add_room` (improved variant, with type and location). -/
def add_room (db : Store) (name room_type location : String) : Store × Bool :=
  if db.rooms.any (fun r => r.room_name == name) then (db, false)
  else
    ({ db with
        rooms := db.rooms ++ [⟨db.next_room_id, name, room_type, location⟩],
        next_room_id := db.next_room_id + 1 },
     true)

/-- `remove_room`. -/
def remove_room (db : Store) (name : String) : Store × Bool :=
  (({ db with rooms := db.rooms.filter (fun r => r.room_name ≠ name) }),
   db.rooms.any (fun r => r.room_name == name))

/-- `add_material`. -/
def add_material (db : Store) (name emoji category : String) : Store × Bool :=
  if db.materials.any (fun m => m.material_name == name) then (db, false)
  else
    ({ db with
        materials := db.materials ++ [⟨db.next_material_id, name, emoji, category⟩],
        next_material_id := db.next_material_id + 1 },
     true)

/-- `remove_material`. -/
def remove_material (db : Store) (name : String) : Store × Bool :=
  (({ db with materials := db.materials.filter (fun m => m.material_name ≠ name) }),
   db.materials.any (fun m => m.material_name == name))

/-- `add_feedback`. -/
def add_feedback (db : Store) (user_id : Int) (text : String) (now : Int) : Store :=
  { db with
      feedback := db.feedback ++ [⟨db.next_feedback_id, user_id, text, now⟩],
      next_feedback_id := db.next_feedback_id + 1 }

/-! ## Rounding

Python `round(x, n)` rounds half to even.  The program feeds it exact
ratios of integers, modelled in `ℚ`. -/

/-- Round half to even to the nearest integer. -/
def pyRound (q : ℚ) : Int :=
  let f : Int := ⌊q⌋
  let frac : ℚ := q - f
  if frac < 1 / 2 then f
  else if 1 / 2 < frac then f + 1
  else if f % 2 = 0 then f else f + 1

/-- Python `round(q, 2)`. -/
def round2 (q : ℚ) : ℚ := (pyRound (q * 100) : ℚ) / 100

/-- Python `round(q, 1)`. -/
def round1 (q : ℚ) : ℚ := (pyRound (q * 10) : ℚ) / 10

/-! ## `get_dashboard_stats`

The scalar statistics of the dashboard.  The three display-only ranking
lists of the Python dict (`problematic_rooms`, `top_materials`,
`condition_breakdown`) are presentation data outside every claim and are
not carried in the record. -/

/-- The scalar fields of the dashboard statistics dict. -/
structure DashboardStats where
  total_entries : Int
  total_items : Int
  total_broken : Int
  total_good : Int
  broken_percentage : ℚ
  good_percentage : ℚ
  total_rooms : Int
  total_materials : Int
  active_users : Int
  entries_24h : Int
  deriving DecidableEq

/-- `SUM(total_count)` with the `or 0` guard for the empty table. -/
def sqlSumTotal (l : List EntryRow) : Int :=
  l.foldl (fun a e => a + e.total_count) 0

/-- `SUM(broken_count)` with the `or 0` guard for the empty table. -/
def sqlSumBroken (l : List EntryRow) : Int :=
  l.foldl (fun a e => a + e.broken_count) 0

/-- `SUM(good_count)` with the `or 0` guard for the empty table. -/
def sqlSumGood (l : List EntryRow) : Int :=
  l.foldl (fun a e => a + e.good_count) 0

/-- `get_dashboard_stats`; `now` is the clock used by
`datetime('now', '-1 day')` (one day = 86400 seconds). -/
def get_dashboard_stats (db : Store) (now : Int) : DashboardStats :=
  let total_items := sqlSumTotal db.entries
  let total_broken := sqlSumBroken db.entries
  let total_good := sqlSumGood db.entries
  { total_entries := db.entries.length
    total_items := total_items
    total_broken := total_broken
    total_good := total_good
    broken_percentage :=
      if 0 < total_items then round2 ((total_broken : ℚ) / total_items * 100) else 0
    good_percentage :=
      if 0 < total_items then round2 ((total_good : ℚ) / total_items * 100) else 0
    total_rooms := db.rooms.length
    total_materials := db.materials.length
    active_users := ((db.entries.map (fun e => e.user_id)).dedup).length
    entries_24h := (db.entries.filter (fun e => now - 86400 < e.timestamp)).length }

/-! ## `export_to_csv`

Both variants run the same three-way inner join ordered by timestamp
descending; they differ in the selected columns: the improved file emits a
`Location` column, `bot_final_complete.py` does not. -/

/-- One row of the export join
(`inventory_entries JOIN users JOIN rooms JOIN materials`). -/
structure ExportRow where
  username : String
  room : String
  material : String
  total : Int
  broken : Int
  good : Int
  condition : String
  location : String
  timestamp : Int
  deriving DecidableEq

/-- The inner join of the export query, in table-scan order. -/
def exportJoin (db : Store) : List ExportRow :=
  db.entries.filterMap (fun e =>
    match db.users.find? (fun u => u.user_id == e.user_id),
        db.rooms.find? (fun r => r.room_id == e.room_id),
        db.materials.find? (fun m => m.material_id == e.material_id) with
    | some u, some r, some m =>
      some ⟨u.username, r.room_name, m.material_name, e.total_count,
            e.broken_count, e.good_count, e.condition, e.location_details,
            e.timestamp⟩
    | _, _, _ => none)

/-- `ORDER BY ie.timestamp DESC`: `a` may precede `b` iff `b`'s timestamp is
not larger. -/
def tsDesc (a b : ExportRow) : Prop := b.timestamp ≤ a.timestamp

instance : DecidableRel tsDesc := fun a b =>
  inferInstanceAs (Decidable (b.timestamp ≤ a.timestamp))

instance : IsTotal ExportRow tsDesc :=
  ⟨fun a b => (Int.le_total b.timestamp a.timestamp).imp id id⟩

instance : IsTrans ExportRow tsDesc :=
  ⟨fun _ _ _ hab hbc => le_trans hbc hab⟩

/-- The export rows, ordered by timestamp descending. -/
def export_rows (db : Store) : List ExportRow :=
  List.insertionSort tsDesc (exportJoin db)

/-- `export_to_csv` of `bot_final_improved_1.py`: header row then data rows. -/
def export_to_csv (db : Store) : List (List String) :=
  ["User", "Room", "Material", "Total", "Broken", "Good", "Condition",
   "Location", "Timestamp"] ::
  (export_rows db).map (fun r =>
    [r.username, r.room, r.material, toString r.total, toString r.broken,
     toString r.good, r.condition, r.location, toString r.timestamp])

/-- `export_to_csv` of `bot_final_complete.py`: same join and order, but the
query selects no location column and the header omits `Location`. -/
def export_to_csv_complete (db : Store) : List (List String) :=
  ["User", "Room", "Material", "Total", "Broken", "Good", "Condition",
   "Timestamp"] ::
  (export_rows db).map (fun r =>
    [r.username, r.room, r.material, toString r.total, toString r.broken,
     toString r.good, r.condition, toString r.timestamp])

/-! ## `get_low_stock_items` -/

/-- A row of the low-stock join (`room_name`, `material_name`, counts). -/
structure LowJoinRow where
  room : String
  material : String
  total : Int
  broken : Int
  deriving DecidableEq

/-- A dict appended to the low-stock result list. -/
structure LowRow where
  room : String
  material : String
  avg_total : ℚ
  avg_broken : ℚ
  broken_percentage : ℚ
  deriving DecidableEq

/-- The inner join of the low-stock query, in table-scan order. -/
def lowJoin (db : Store) : List LowJoinRow :=
  db.entries.filterMap (fun e =>
    match db.rooms.find? (fun r => r.room_id == e.room_id),
        db.materials.find? (fun m => m.material_id == e.material_id) with
    | some r, some m => some ⟨r.room_name, m.material_name, e.total_count, e.broken_count⟩
    | _, _ => none)

/-- Group keys in first-appearance order (`GROUP BY r.room_name, m.material_name`). -/
def firstKeysAux : Nat → List (String × String) → List (String × String)
  | 0, _ => []
  | _ + 1, [] => []
  | fuel + 1, k :: rest => k :: firstKeysAux fuel (rest.filter (fun k2 => k2 ≠ k))

/-- Distinct keys of a list, keeping first appearances. -/
def firstKeys (l : List (String × String)) : List (String × String) :=
  firstKeysAux l.length l

/-- The joined rows of one group. -/
def groupRows (j : List LowJoinRow) (k : String × String) : List LowJoinRow :=
  j.filter (fun r => (r.room, r.material) == k)

/-- `AVG(ie.total_count)` over a group. -/
def avgTotal (j : List LowJoinRow) (k : String × String) : ℚ :=
  ((groupRows j k).foldl (fun a r => a + r.total) 0 : Int) / ((groupRows j k).length : ℚ)

/-- `AVG(ie.broken_count)` over a group. -/
def avgBroken (j : List LowJoinRow) (k : String × String) : ℚ :=
  ((groupRows j k).foldl (fun a r => a + r.broken) 0 : Int) / ((groupRows j k).length : ℚ)

/-- `AVG(broken) * 100.0 / AVG(total)`: SQL division by zero is NULL. -/
def brokenPct (j : List LowJoinRow) (k : String × String) : Option ℚ :=
  if avgTotal j k = 0 then none else some (avgBroken j k * 100 / avgTotal j k)

/-- `HAVING broken_percentage > 20 OR avg_total < ?` (NULL compares falsy). -/
def lowHaving (thr : Int) (j : List LowJoinRow) (k : String × String) : Bool :=
  (match brokenPct j k with
   | some p => decide (20 < p)
   | none => false) || decide (avgTotal j k < (thr : ℚ))

/-- NULL-last descending comparison on optional percentages
(`ORDER BY broken_percentage DESC`; SQL NULL sorts below every value). -/
def obpLeB : Option ℚ → Option ℚ → Bool
  | none, _ => true
  | some _, none => false
  | some a, some b => decide (a ≤ b)

/-- Sort order of the flagged groups: `k1` may precede `k2` iff `k2`'s
percentage is not above `k1`'s. -/
def lowBefore (j : List LowJoinRow) (k1 k2 : String × String) : Prop :=
  obpLeB (brokenPct j k2) (brokenPct j k1) = true

instance (j : List LowJoinRow) : DecidableRel (lowBefore j) := fun _ _ =>
  inferInstanceAs (Decidable (_ = true))

/-- `get_low_stock_items`.  The Python loop applies `round(·, 1)` to every
column of every fetched row; on a row whose `broken_percentage` is NULL
(`None`) this raises `TypeError`, so no list is returned: that aborted
outcome is `none`. -/
def get_low_stock_items (db : Store) (threshold : Int) : Option (List LowRow) :=
  let j := lowJoin db
  let keys := firstKeys (j.map (fun r => (r.room, r.material)))
  let flagged := keys.filter (lowHaving threshold j)
  let sorted := List.insertionSort (lowBefore j) flagged
  sorted.mapM (fun k =>
    match brokenPct j k with
    | none => none
    | some p => some ⟨k.1, k.2, round1 (avgTotal j k), round1 (avgBroken j k), round1 p⟩)

/-! ## The conversation state machine

The `ConversationHandler` of `bot_final_improved_1.py`, for one user.  A
handler that raises (KeyError on a missing `user_data` key, or ValueError
from `int()` escaping a `try`) leaves the conversation state where it was,
keeping the `user_data` mutations it made before raising.  `ENDED` stands
for `ConversationHandler.END` / no active conversation. -/

/-- Conversation states of the main handler. -/
inductive ConvState where
  | SELECT_ROLE | ADMIN_PIN | SELECT_ROOM | SELECT_MATERIAL | SELECT_COLOR
  | ENTER_TOTAL | ENTER_BROKEN | SELECT_CONDITION | CONFIRM_ENTRY
  | ADMIN_MENU | ADD_ROOM | REMOVE_ROOM | ADD_MATERIAL | REMOVE_MATERIAL
  | ROOM_DETAILS | MANAGE_COLORS | ADD_COLOR | EDIT_COLOR | ENDED
  deriving DecidableEq

/-- The per-user `context.user_data` dict: every key the handlers use,
`none` when the key is absent.  `color_id = some none` is the key present
with value `None` ("no color"). -/
structure Draft where
  role : Option String
  selected_room : Option String
  selected_material : Option String
  color_id : Option (Option Int)
  color_name : Option String
  total : Option Int
  broken : Option Int
  condition : Option String
  edit_color_id : Option Int
  deriving DecidableEq

/-- `context.user_data.clear()`. -/
def emptyDraft : Draft :=
  ⟨none, none, none, none, none, none, none, none, none⟩

/-- The static configuration (`config.json` contents the handlers read). -/
structure Config where
  admin_pin : String
  conditions : List String
  low_stock_threshold : Int

/-- Inbound events of one user's chat: the `/start` and `/cancel` commands,
a callback-query selection carrying its data string, and a free-text
(non-command) message. -/
inductive Event where
  | startCmd
  | cancelCmd
  | cb (data : String)
  | msg (s : String)

/-- One user's session paired with the shared store and an abstract clock. -/
structure World where
  state : ConvState
  draft : Draft
  store : Store
  user : UserRow
  now : Int
  deriving DecidableEq

/-- The `start` handler: clears the draft, upserts the user, asks for a
role. -/
def runStart (w : World) : World :=
  { w with draft := emptyDraft, store := add_user w.store w.user,
           state := .SELECT_ROLE }

/-- `show_room_selection`: ends the conversation when no room exists. -/
def show_room_selection (w : World) : World :=
  if get_rooms w.store = [] then { w with state := .ENDED }
  else { w with state := .SELECT_ROOM }

/-- `select_role` (state `SELECT_ROLE`); an unknown callback returns `None`,
which keeps the state. -/
def select_role (w : World) (data : String) : World :=
  if data = "role_user" then
    show_room_selection { w with draft := { w.draft with role := some "user" } }
  else if data = "role_admin" then
    { w with state := .ADMIN_PIN }
  else w

/-- `verify_admin_pin` (state `ADMIN_PIN`): fail-closed, the conversation
ends on a wrong PIN. -/
def verify_admin_pin (cfg : Config) (w : World) (s : String) : World :=
  if pyStrip s = cfg.admin_pin then
    { w with draft := { w.draft with role := some "admin" }, state := .ADMIN_MENU }
  else { w with state := .ENDED }

/-- `select_room` (state `SELECT_ROOM`). -/
def select_room (w : World) (data : String) : World :=
  if data = "back_to_start" then runStart w
  else
    { w with draft := { w.draft with selected_room := some (pyReplace data "room_") },
             state := .SELECT_MATERIAL }

/-- The hard-coded chair test of `select_material`
(`if material_name == "Chaises"`), the realization of the spec's
`requiresColor` flag. -/
def requiresColor (name : String) : Bool := name == "Chaises"

/-- `select_material` (state `SELECT_MATERIAL`): the color branch is taken
iff the material is chair-like and at least one color exists.  The prompt
interpolates `user_data['selected_room']`, so with no room in the draft the
handler raises after storing the material and the state stays put. -/
def select_material (w : World) (data : String) : World :=
  if data = "back_to_rooms" then show_room_selection w
  else
    let name := pyReplace data "material_"
    let d := { w.draft with selected_material := some name }
    if requiresColor name ∧ get_chair_colors w.store ≠ [] then
      if w.draft.selected_room = none then { w with draft := d }
      else { w with draft := d, state := .SELECT_COLOR }
    else
      if w.draft.selected_room = none then { w with draft := d }
      else { w with draft := d, state := .ENTER_TOTAL }

/-- `select_chair_color` (state `SELECT_COLOR`): "no color" stores `None`,
a color token stores the id as given, naming it `Inconnue` when the id is
not in the table; a malformed id raises ValueError and the state stays. -/
def select_chair_color (w : World) (data : String) : World :=
  if data = "back_to_materials" then
    if w.draft.selected_room = none then w else { w with state := .SELECT_MATERIAL }
  else if data = "chaircolor_none" then
    let d := { w.draft with color_id := some none, color_name := some "Non spécifiée" }
    if w.draft.selected_room = none then { w with draft := d }
    else { w with draft := d, state := .ENTER_TOTAL }
  else
    match toIntPy (pyReplace data "chaircolor_") with
    | none => w
    | some i =>
      let cname :=
        (((get_chair_colors w.store).find? (fun c => c.color_id == i)).map
          (fun c => c.color_name)).getD "Inconnue"
      let d := { w.draft with color_id := some (some i), color_name := some cname }
      if w.draft.selected_room = none then { w with draft := d }
      else { w with draft := d, state := .ENTER_TOTAL }

/-- `enter_total` (state `ENTER_TOTAL`): a non-negative integer advances,
anything else re-prompts the same state with the draft untouched. -/
def enter_total (w : World) (s : String) : World :=
  match toIntPy s with
  | none => w
  | some t =>
    if t < 0 then w
    else { w with draft := { w.draft with total := some t }, state := .ENTER_BROKEN }

/-- `enter_broken` (state `ENTER_BROKEN`): an integer `b` with
`0 ≤ b ≤ total` advances, anything else re-prompts with the draft
untouched. -/
def enter_broken (w : World) (s : String) : World :=
  match toIntPy s with
  | none => w
  | some b =>
    match w.draft.total with
    | none => w
    | some t =>
      if b < 0 ∨ t < b then w
      else { w with draft := { w.draft with broken := some b }, state := .SELECT_CONDITION }

/-- `select_condition` (state `SELECT_CONDITION`): any callback data is
accepted as the condition label; the summary then interpolates the draft
fields, so a missing one raises after the label was stored. -/
def select_condition (w : World) (data : String) : World :=
  let d := { w.draft with condition := some (pyReplace data "condition_") }
  if w.draft.selected_room = none ∨ w.draft.selected_material = none ∨
      w.draft.total = none ∨ w.draft.broken = none then
    { w with draft := d }
  else { w with draft := d, state := .CONFIRM_ENTRY }

/-- `confirm_entry` (state `CONFIRM_ENTRY`): `confirm_yes` persists and
ends; `confirm_stay` persists and, on success, keeps only the room and
returns to material selection; anything else cancels. -/
def confirm_entry (w : World) (data : String) : World :=
  if data = "confirm_yes" then
    match w.draft.selected_room, w.draft.selected_material, w.draft.total,
        w.draft.broken, w.draft.condition with
    | some room, some material, some t, some b, some cond =>
      let r := add_inventory_entry w.store w.user.user_id room material t b cond ""
        (w.draft.color_id.getD none) w.now
      { w with store := r.1, draft := emptyDraft, state := .ENDED }
    | _, _, _, _, _ => w
  else if data = "confirm_stay" then
    match w.draft.selected_room, w.draft.selected_material, w.draft.total,
        w.draft.broken, w.draft.condition with
    | some room, some material, some t, some b, some cond =>
      let r := add_inventory_entry w.store w.user.user_id room material t b cond ""
        (w.draft.color_id.getD none) w.now
      if r.2 then
        { w with store := r.1,
                 draft := { emptyDraft with selected_room := some room },
                 state := .SELECT_MATERIAL }
      else { w with store := r.1, draft := emptyDraft, state := .ENDED }
    | _, _, _, _, _ => w
  else { w with draft := emptyDraft, state := .ENDED }

/-- `handle_admin_action` (state `ADMIN_MENU`): menu dispatch; the
dashboard, export, alert and feedback screens only read the store. -/
def handle_admin_action (w : World) (data : String) : World :=
  if data = "admin_dashboard" then { w with state := .ADMIN_MENU }
  else if data = "admin_room_details" then { w with state := .ROOM_DETAILS }
  else if data = "admin_manage_colors" then { w with state := .MANAGE_COLORS }
  else if data = "admin_view_feedback" then { w with state := .ADMIN_MENU }
  else if data = "back_to_admin" then { w with state := .ADMIN_MENU }
  else if data = "admin_export" then { w with state := .ADMIN_MENU }
  else if data = "admin_low_stock" then { w with state := .ADMIN_MENU }
  else if data = "admin_add_room" then { w with state := .ADD_ROOM }
  else if data = "admin_remove_room" then { w with state := .REMOVE_ROOM }
  else if data = "admin_add_material" then { w with state := .ADD_MATERIAL }
  else if data = "admin_remove_material" then { w with state := .REMOVE_MATERIAL }
  else if data = "back_to_start" then runStart { w with draft := emptyDraft }
  else { w with state := .ADMIN_MENU }

/-- `add_room_handler` (state `ADD_ROOM`). -/
def add_room_handler (w : World) (s : String) : World :=
  { w with store := (add_room w.store (pyStrip s) "" "").1, state := .ADMIN_MENU }

/-- `remove_room_handler` (state `REMOVE_ROOM`). -/
def remove_room_handler (w : World) (data : String) : World :=
  if data = "back_to_admin" then { w with state := .ADMIN_MENU }
  else
    { w with store := (remove_room w.store (pyReplace data "delroom_")).1,
             state := .ADMIN_MENU }

/-- `add_material_handler` (state `ADD_MATERIAL`): the leftmost emoji run is
split off as the emoji, the rest is the name. -/
def add_material_handler (w : World) (s : String) : World :=
  let t := pyStrip s
  let em := findEmojiRun t.data
  let emoji := match em with
    | some run => String.mk run
    | none => "📦"
  let name := match em with
    | some run => pyStrip (pyReplace t (String.mk run))
    | none => t
  { w with store := (add_material w.store name emoji "").1, state := .ADMIN_MENU }

/-- `remove_material_handler` (state `REMOVE_MATERIAL`). -/
def remove_material_handler (w : World) (data : String) : World :=
  if data = "back_to_admin" then { w with state := .ADMIN_MENU }
  else
    { w with store := (remove_material w.store (pyReplace data "delmat_")).1,
             state := .ADMIN_MENU }

/-- `handle_color_action` (states `MANAGE_COLORS` and the callback path of
`EDIT_COLOR`). -/
def handle_color_action (w : World) (data : String) : World :=
  if data = "back_to_start" then runStart { w with draft := emptyDraft }
  else if data = "color_add" then { w with state := .ADD_COLOR }
  else if data = "color_edit" then
    if get_chair_colors w.store = [] then { w with state := .MANAGE_COLORS }
    else { w with state := .EDIT_COLOR }
  else if data = "color_delete" then { w with state := .MANAGE_COLORS }
  else if data = "back_to_colors" then { w with state := .MANAGE_COLORS }
  else if pyStarts data "delcolor_" then
    match toIntPy (pyReplace data "delcolor_") with
    | none => w
    | some i =>
      { w with store := (delete_chair_color w.store i).1, state := .MANAGE_COLORS }
  else if pyStarts data "editcolor_" then
    match toIntPy (pyReplace data "editcolor_") with
    | none => w
    | some i =>
      let d := { w.draft with edit_color_id := some i }
      if (get_chair_colors w.store).any (fun c => c.color_id == i) then
        { w with draft := d, state := .EDIT_COLOR }
      else { w with draft := d, state := .MANAGE_COLORS }
  else { w with state := .MANAGE_COLORS }

/-- `add_color_handler` (state `ADD_COLOR`): input `Name #Code`. -/
def add_color_handler (w : World) (s : String) : World :=
  let parts := splitHash (pyStrip s).data
  let name := pyStrip (String.mk (parts.headD []))
  let code := match parts with
    | _ :: p1 :: _ => "#" ++ pyStrip (String.mk p1)
    | _ => ""
  { w with store := (add_chair_color w.store name code).1, state := .ADMIN_MENU }

/-- `edit_color_handler` (text path of state `EDIT_COLOR`): `if not
color_id` also fires on id 0. -/
def edit_color_handler (w : World) (s : String) : World :=
  if w.draft.edit_color_id = none ∨ w.draft.edit_color_id = some 0 then
    { w with state := .ADMIN_MENU }
  else
    match w.draft.edit_color_id with
    | none => { w with state := .ADMIN_MENU }
    | some i =>
      let parts := splitHash (pyStrip s).data
      let name := pyStrip (String.mk (parts.headD []))
      let code := match parts with
        | _ :: p1 :: _ => "#" ++ pyStrip (String.mk p1)
        | _ => ""
      { w with store := (update_chair_color w.store i name code).1,
               draft := { w.draft with edit_color_id := none },
               state := .ADMIN_MENU }

/-- `show_room_details` (state `ROOM_DETAILS`): an unknown room name (also
the back buttons, whose data is no room name) reports "not found" and
returns to the admin menu. -/
def show_room_details (w : World) (data : String) : World :=
  if (lookupRoom w.store.rooms (pyReplace data "roomdetail_")).isSome then
    { w with state := .ROOM_DETAILS }
  else { w with state := .ADMIN_MENU }

/-- Dispatch of a callback query to the current state's handler. -/
def stepCb (w : World) (data : String) : World :=
  match w.state with
  | .SELECT_ROLE => select_role w data
  | .SELECT_ROOM => select_room w data
  | .SELECT_MATERIAL => select_material w data
  | .SELECT_COLOR => select_chair_color w data
  | .SELECT_CONDITION => select_condition w data
  | .CONFIRM_ENTRY => confirm_entry w data
  | .ADMIN_MENU => handle_admin_action w data
  | .REMOVE_ROOM => remove_room_handler w data
  | .REMOVE_MATERIAL => remove_material_handler w data
  | .ROOM_DETAILS => show_room_details w data
  | .MANAGE_COLORS => handle_color_action w data
  | .EDIT_COLOR => handle_color_action w data
  | _ => w

/-- Dispatch of a free-text message to the current state's handler. -/
def stepMsg (cfg : Config) (w : World) (s : String) : World :=
  match w.state with
  | .ADMIN_PIN => verify_admin_pin cfg w s
  | .ENTER_TOTAL => enter_total w s
  | .ENTER_BROKEN => enter_broken w s
  | .ADD_ROOM => add_room_handler w s
  | .ADD_MATERIAL => add_material_handler w s
  | .ADD_COLOR => add_color_handler w s
  | .EDIT_COLOR => edit_color_handler w s
  | _ => w

/-- One inbound event.  `/start` is an entry point only (no re-entry while a
conversation is active); `/cancel` is the fallback of every active state;
events with no registered handler for the current state are dropped. -/
def step (cfg : Config) (w : World) (ev : Event) : World :=
  match ev with
  | .startCmd => if w.state = .ENDED then runStart w else w
  | .cancelCmd =>
    if w.state = .ENDED then w else { w with draft := emptyDraft, state := .ENDED }
  | .cb data => stepCb w data
  | .msg s => stepMsg cfg w s

/-- A whole trace of events. -/
def run (cfg : Config) (w : World) (evs : List Event) : World :=
  evs.foldl (step cfg) w

/-- The room id an entry insert uses: the existing row's id, or the fresh
auto-vivified one. -/
def roomIdOf (db : Store) (room_name : String) : Int :=
  match lookupRoom db.rooms room_name with
  | some r => r.room_id
  | none => db.next_room_id

/-- The session before any interaction: no active conversation, empty
draft. -/
def initWorld (u : UserRow) (st : Store) (now : Int) : World :=
  { state := .ENDED, draft := emptyDraft, store := st, user := u, now := now }

/-! ## Invariants -/

/-- The entry invariant of the spec (§8): `good = total - broken`,
`0 ≤ broken ≤ total`, `total ≥ 0`. -/
def entryOK (e : EntryRow) : Prop :=
  e.good_count = e.total_count - e.broken_count ∧
  0 ≤ e.broken_count ∧ e.broken_count ≤ e.total_count ∧ 0 ≤ e.total_count

instance (e : EntryRow) : Decidable (entryOK e) :=
  inferInstanceAs (Decidable (_ ∧ _ ∧ _ ∧ _))

/-- The states in which the draft can still reach `ENTER_TOTAL` without
being cleared: there the `broken` key must be absent. -/
def preBroken : ConvState → Bool
  | .SELECT_ROLE | .SELECT_ROOM | .SELECT_MATERIAL | .SELECT_COLOR
  | .ENTER_TOTAL => true
  | _ => false

/-- Any stored `total` is non-negative. -/
def draftTotalOK (d : Draft) : Prop := ∀ t, d.total = some t → 0 ≤ t

/-- Any stored `broken` is within the bounds of the stored `total`. -/
def draftBrokenOK (d : Draft) : Prop :=
  ∀ b, d.broken = some b → ∃ t, d.total = some t ∧ 0 ≤ b ∧ b ≤ t

/-- The inductive session invariant. -/
def DraftInv (d : Draft) (s : ConvState) : Prop :=
  draftTotalOK d ∧ draftBrokenOK d ∧ (preBroken s = true → d.broken = none)

/-- Every entry of the store is either inherited from `base` or satisfies
the entry invariant. -/
def EntriesOK (base : List EntryRow) (st : Store) : Prop :=
  ∀ e ∈ st.entries, e ∈ base ∨ entryOK e

/-! ## Concrete sample data for witnesses and counterexamples -/

/-- A sample user. -/
def sampleUser : UserRow := ⟨7, "alice", "Alice", "A"⟩

/-- A sample seeded store: one room, one plain material, one color. -/
def sampleStore : Store :=
  { users := [sampleUser]
    rooms := [⟨1, "Salle", "", ""⟩]
    materials := [⟨1, "Tables", "📋", ""⟩]
    chair_colors := [⟨1, "Rouge", "#FF0000"⟩]
    entries := []
    feedback := []
    next_room_id := 2, next_material_id := 2, next_color_id := 2
    next_entry_id := 1, next_feedback_id := 1 }

/-- The default configuration values. -/
def sampleCfg : Config :=
  ⟨"1234", ["Neuf", "Bon état", "État moyen", "Cassé", "Manquant", "Déplacé"], 10⟩

/-- A full user flow ending in `confirm_yes`. -/
def sampleTrace : List Event :=
  [.startCmd, .cb "role_user", .cb "room_Salle", .cb "material_Tables",
   .msg "10", .msg "3", .cb "condition_Neuf", .cb "confirm_yes"]

/-- The entry that `sampleTrace` persists. -/
def sampleEntry : EntryRow :=
  ⟨1, 7, 1, 1, none, 10, 3, 7, "Neuf", "", 100⟩

/-- A session sitting at the confirmation screen with a complete draft. -/
def sampleConfirmWorld : World :=
  { state := .CONFIRM_ENTRY
    draft := { emptyDraft with
                selected_room := some "Salle", selected_material := some "Tables",
                total := some 10, broken := some 3, condition := some "Neuf" }
    store := sampleStore, user := sampleUser, now := 100 }

/-- A session at the material-selection screen. -/
def sampleMaterialWorld : World :=
  { state := .SELECT_MATERIAL
    draft := { emptyDraft with selected_room := some "Salle" }
    store := sampleStore, user := sampleUser, now := 100 }

/-- A session at the color-selection screen. -/
def sampleColorWorld : World :=
  { state := .SELECT_COLOR
    draft := { emptyDraft with
                selected_room := some "Salle", selected_material := some "Chaises" }
    store := sampleStore, user := sampleUser, now := 100 }

/-- A session awaiting the broken count, with `total = 10` stored. -/
def sampleBrokenWorld : World :=
  { state := .ENTER_BROKEN
    draft := { emptyDraft with
                selected_room := some "Salle", selected_material := some "Tables",
                total := some 10 }
    store := sampleStore, user := sampleUser, now := 100 }

/-- A store whose only entry has `total = 0, broken = 0` for the single
(room, material) pair: reachable through the normal flow. -/
def zeroTotalStore : Store :=
  { sampleStore with
      rooms := [⟨1, "RoomX", "", ""⟩]
      materials := [⟨1, "MaterialY", "", ""⟩]
      entries := [⟨1, 7, 1, 1, none, 0, 0, 0, "Neuf", "", 50⟩]
      next_entry_id := 2 }

/-- The store of spec scenario C: one entry, `total = 5, broken = 0`. -/
def scenarioCStore : Store :=
  { sampleStore with
      rooms := [⟨1, "RoomX", "", ""⟩]
      materials := [⟨1, "MaterialY", "", ""⟩]
      entries := [⟨1, 7, 1, 1, none, 5, 0, 5, "Neuf", "", 50⟩]
      next_entry_id := 2 }

/-! ## Helper lemmas: store operations and the entry log -/

theorem add_room_entries (db : Store) (n t l : String) :
    (add_room db n t l).1.entries = db.entries := by
  unfold add_room; split <;> rfl

theorem add_material_entries (db : Store) (n e c : String) :
    (add_material db n e c).1.entries = db.entries := by
  unfold add_material; split <;> rfl

theorem add_chair_color_entries (db : Store) (n c : String) :
    (add_chair_color db n c).1.entries = db.entries := by
  unfold add_chair_color; split <;> rfl

/-- Entries-preservation transfers `EntriesOK`. -/
theorem entriesOK_of_eq {base : List EntryRow} {st st' : Store}
    (h : st'.entries = st.entries) (hE : EntriesOK base st) : EntriesOK base st' :=
  fun e he => hE e (h ▸ he)

/-- The cleared draft satisfies the invariant in every state. -/
theorem emptyDraft_inv (s : ConvState) : DraftInv emptyDraft s :=
  ⟨fun _ ht => by simp [emptyDraft] at ht,
   fun _ hb => by simp [emptyDraft] at hb,
   fun _ => rfl⟩

/-- Any entry present after `add_inventory_entry` is an old one or the new
row, whose counts are the arguments and whose `good` is their difference. -/
theorem add_entry_mem {db : Store} {uid : Int} {rn mn : String} {t b : Int}
    {c loc : String} {cid : Option Int} {now : Int} {e : EntryRow}
    (he : e ∈ (add_inventory_entry db uid rn mn t b c loc cid now).1.entries) :
    e ∈ db.entries ∨ (e.total_count = t ∧ e.broken_count = b ∧ e.good_count = t - b) := by
  unfold add_inventory_entry at he
  cases hr : lookupRoom db.rooms rn <;> simp only [hr] at he <;> split at he
  all_goals
    first
    | exact Or.inl he
    | (rcases List.mem_append.mp he with h | h
       · exact Or.inl h
       · rcases List.mem_singleton.mp h with rfl
         exact Or.inr ⟨rfl, rfl, rfl⟩)

/-- On an unknown material the transaction is rolled back whole: the store
is returned unchanged (the auto-created room row included) with `False`. -/
theorem add_entry_fail (db : Store) (uid : Int) (rn mn : String) (t b : Int)
    (c loc : String) (cid : Option Int) (now : Int)
    (hm : lookupMaterial db.materials mn = none) :
    add_inventory_entry db uid rn mn t b c loc cid now = (db, false) := by
  unfold add_inventory_entry
  cases hr : lookupRoom db.rooms rn <;> simp [hr, hm]

/-- On a known material the call succeeds, appends exactly one entry row
with `good = total - broken`, and auto-creates the room row iff it was
missing. -/
theorem add_entry_success (db : Store) (uid : Int) (rn mn : String) (t b : Int)
    (c loc : String) (cid : Option Int) (now : Int) (m : MaterialRow)
    (hm : lookupMaterial db.materials mn = some m) :
    (add_inventory_entry db uid rn mn t b c loc cid now).2 = true ∧
    (add_inventory_entry db uid rn mn t b c loc cid now).1.entries =
      db.entries ++ [⟨db.next_entry_id, uid, roomIdOf db rn, m.material_id, cid,
        t, b, t - b, c, loc, now⟩] ∧
    (lookupRoom db.rooms rn = none →
      (add_inventory_entry db uid rn mn t b c loc cid now).1.rooms =
        db.rooms ++ [⟨db.next_room_id, rn, "", ""⟩]) ∧
    (∀ r, lookupRoom db.rooms rn = some r →
      (add_inventory_entry db uid rn mn t b c loc cid now).1.rooms = db.rooms) := by
  unfold add_inventory_entry roomIdOf
  cases hr : lookupRoom db.rooms rn <;> simp [hr, hm]

/-! ## Invariant preservation, handler by handler -/

theorem runStart_inv (w : World) (base : List EntryRow)
    (hE : EntriesOK base w.store) :
    DraftInv (runStart w).draft (runStart w).state ∧
      EntriesOK base (runStart w).store :=
  ⟨emptyDraft_inv _, hE⟩

theorem show_room_selection_inv (w : World) (base : List EntryRow)
    (h1 : draftTotalOK w.draft) (h2 : draftBrokenOK w.draft)
    (hb : w.draft.broken = none) (hE : EntriesOK base w.store) :
    DraftInv (show_room_selection w).draft (show_room_selection w).state ∧
      EntriesOK base (show_room_selection w).store := by
  unfold show_room_selection; split <;> exact ⟨⟨h1, h2, fun _ => hb⟩, hE⟩

theorem select_role_inv (w : World) (base : List EntryRow) (data : String)
    (h1 : draftTotalOK w.draft) (h2 : draftBrokenOK w.draft)
    (hb : w.draft.broken = none) (hE : EntriesOK base w.store) :
    DraftInv (select_role w data).draft (select_role w data).state ∧
      EntriesOK base (select_role w data).store := by
  unfold select_role
  split
  · exact show_room_selection_inv _ base h1 h2 hb hE
  · split <;> exact ⟨⟨h1, h2, fun _ => hb⟩, hE⟩

theorem verify_admin_pin_inv (cfg : Config) (w : World) (base : List EntryRow)
    (s : String) (h1 : draftTotalOK w.draft) (h2 : draftBrokenOK w.draft)
    (hE : EntriesOK base w.store) :
    DraftInv (verify_admin_pin cfg w s).draft (verify_admin_pin cfg w s).state ∧
      EntriesOK base (verify_admin_pin cfg w s).store := by
  unfold verify_admin_pin
  split <;> exact ⟨⟨h1, h2, fun h => by simp [preBroken] at h⟩, hE⟩

theorem select_room_inv (w : World) (base : List EntryRow) (data : String)
    (h1 : draftTotalOK w.draft) (h2 : draftBrokenOK w.draft)
    (hb : w.draft.broken = none) (hE : EntriesOK base w.store) :
    DraftInv (select_room w data).draft (select_room w data).state ∧
      EntriesOK base (select_room w data).store := by
  unfold select_room
  split
  · exact runStart_inv _ base hE
  · exact ⟨⟨h1, h2, fun _ => hb⟩, hE⟩

theorem select_material_inv (w : World) (base : List EntryRow) (data : String)
    (h1 : draftTotalOK w.draft) (h2 : draftBrokenOK w.draft)
    (hb : w.draft.broken = none) (hE : EntriesOK base w.store) :
    DraftInv (select_material w data).draft (select_material w data).state ∧
      EntriesOK base (select_material w data).store := by
  simp only [select_material]
  split
  · exact show_room_selection_inv _ base h1 h2 hb hE
  · split <;> split <;> exact ⟨⟨h1, h2, fun _ => hb⟩, hE⟩

theorem select_chair_color_inv (w : World) (base : List EntryRow) (data : String)
    (h1 : draftTotalOK w.draft) (h2 : draftBrokenOK w.draft)
    (hb : w.draft.broken = none) (hE : EntriesOK base w.store) :
    DraftInv (select_chair_color w data).draft (select_chair_color w data).state ∧
      EntriesOK base (select_chair_color w data).store := by
  unfold select_chair_color
  split
  · split <;> exact ⟨⟨h1, h2, fun _ => hb⟩, hE⟩
  · split
    · split <;> exact ⟨⟨h1, h2, fun _ => hb⟩, hE⟩
    · split
      · exact ⟨⟨h1, h2, fun _ => hb⟩, hE⟩
      · split <;> exact ⟨⟨h1, h2, fun _ => hb⟩, hE⟩

theorem enter_total_inv (w : World) (base : List EntryRow) (s : String)
    (h1 : draftTotalOK w.draft) (h2 : draftBrokenOK w.draft)
    (hb : w.draft.broken = none) (hE : EntriesOK base w.store) :
    DraftInv (enter_total w s).draft (enter_total w s).state ∧
      EntriesOK base (enter_total w s).store := by
  unfold enter_total
  split
  · exact ⟨⟨h1, h2, fun _ => hb⟩, hE⟩
  · rename_i t _
    split
    · exact ⟨⟨h1, h2, fun _ => hb⟩, hE⟩
    · refine ⟨⟨fun t' ht' => ?_, fun b hbb => ?_, fun h => by simp [preBroken] at h⟩, hE⟩
      · simp only at ht'
        injection ht' with h
        omega
      · simp only at hbb
        rw [hb] at hbb
        exact absurd hbb (by simp)

theorem enter_broken_inv (w : World) (base : List EntryRow) (s : String)
    (h1 : draftTotalOK w.draft) (h2 : draftBrokenOK w.draft)
    (h3 : preBroken w.state = true → w.draft.broken = none)
    (hE : EntriesOK base w.store) :
    DraftInv (enter_broken w s).draft (enter_broken w s).state ∧
      EntriesOK base (enter_broken w s).store := by
  unfold enter_broken
  split
  · exact ⟨⟨h1, h2, h3⟩, hE⟩
  · rename_i b _
    split
    · exact ⟨⟨h1, h2, h3⟩, hE⟩
    · rename_i t ht
      split
      · exact ⟨⟨h1, h2, h3⟩, hE⟩
      · refine ⟨⟨h1, fun b' hbb => ?_, fun h => by simp [preBroken] at h⟩, hE⟩
        simp only at hbb
        injection hbb with hb'
        exact ⟨t, ht, by omega⟩

theorem select_condition_inv (w : World) (base : List EntryRow) (data : String)
    (h1 : draftTotalOK w.draft) (h2 : draftBrokenOK w.draft)
    (h3 : preBroken w.state = true → w.draft.broken = none)
    (hE : EntriesOK base w.store) :
    DraftInv (select_condition w data).draft (select_condition w data).state ∧
      EntriesOK base (select_condition w data).store := by
  unfold select_condition
  split
  · exact ⟨⟨h1, h2, h3⟩, hE⟩
  · exact ⟨⟨h1, h2, fun h => by simp [preBroken] at h⟩, hE⟩

theorem confirm_entry_inv (w : World) (base : List EntryRow) (data : String)
    (h1 : draftTotalOK w.draft) (h2 : draftBrokenOK w.draft)
    (h3 : preBroken w.state = true → w.draft.broken = none)
    (hE : EntriesOK base w.store) :
    DraftInv (confirm_entry w data).draft (confirm_entry w data).state ∧
      EntriesOK base (confirm_entry w data).store := by
  simp only [confirm_entry]
  split
  · -- confirm_yes
    rcases hroom : w.draft.selected_room with _ | room <;>
      rcases hmat : w.draft.selected_material with _ | material <;>
        rcases htot : w.draft.total with _ | t <;>
          rcases hbrk : w.draft.broken with _ | b <;>
            rcases hcond : w.draft.condition with _ | cond <;>
              try exact ⟨⟨h1, h2, h3⟩, hE⟩
    rcases hR : add_inventory_entry w.store w.user.user_id room material t b cond ""
        (w.draft.color_id.getD none) w.now with ⟨st2, ok⟩
    simp only [hR]
    refine ⟨emptyDraft_inv _, fun e he => ?_⟩
    have he' : e ∈ (add_inventory_entry w.store w.user.user_id room material t b cond ""
        (w.draft.color_id.getD none) w.now).1.entries := by
      rw [hR]; exact he
    rcases add_entry_mem he' with h | ⟨het, heb, heg⟩
    · exact hE e h
    · right
      rcases h2 b hbrk with ⟨t', ht', hb0, hbt⟩
      rw [htot] at ht'
      injection ht' with ht'
      have h0t := h1 t htot
      exact ⟨by rw [heg, het, heb], by rw [heb]; omega, by rw [heb, het]; omega,
             by rw [het]; omega⟩
  · split
    · -- confirm_stay
      rcases hroom : w.draft.selected_room with _ | room <;>
        rcases hmat : w.draft.selected_material with _ | material <;>
          rcases htot : w.draft.total with _ | t <;>
            rcases hbrk : w.draft.broken with _ | b <;>
              rcases hcond : w.draft.condition with _ | cond <;>
                try exact ⟨⟨h1, h2, h3⟩, hE⟩
      rcases hR : add_inventory_entry w.store w.user.user_id room material t b cond ""
          (w.draft.color_id.getD none) w.now with ⟨st2, ok⟩
      simp only [hR]
      have hmem : ∀ e ∈ st2.entries, e ∈ base ∨ entryOK e := by
        intro e he
        have he' : e ∈ (add_inventory_entry w.store w.user.user_id room material t b cond ""
            (w.draft.color_id.getD none) w.now).1.entries := by
          rw [hR]; exact he
        rcases add_entry_mem he' with h | ⟨het, heb, heg⟩
        · exact hE e h
        · right
          rcases h2 b hbrk with ⟨t', ht', hb0, hbt⟩
          rw [htot] at ht'
          injection ht' with ht'
          have h0t := h1 t htot
          exact ⟨by rw [heg, het, heb], by rw [heb]; omega, by rw [heb, het]; omega,
                 by rw [het]; omega⟩
      split
      · exact ⟨⟨fun t' ht' => by simp [emptyDraft] at ht',
                fun b' hbb => by simp [emptyDraft] at hbb,
                fun _ => rfl⟩, hmem⟩
      · exact ⟨emptyDraft_inv _, hmem⟩
    · exact ⟨emptyDraft_inv _, hE⟩

theorem handle_admin_action_inv (w : World) (base : List EntryRow) (data : String)
    (h1 : draftTotalOK w.draft) (h2 : draftBrokenOK w.draft)
    (hE : EntriesOK base w.store) :
    DraftInv (handle_admin_action w data).draft (handle_admin_action w data).state ∧
      EntriesOK base (handle_admin_action w data).store := by
  unfold handle_admin_action
  by_cases hd : data = "admin_dashboard"
  · rw [if_pos hd]; exact ⟨⟨h1, h2, fun h => by simp [preBroken] at h⟩, hE⟩
  rw [if_neg hd]; clear hd
  by_cases hd : data = "admin_room_details"
  · rw [if_pos hd]; exact ⟨⟨h1, h2, fun h => by simp [preBroken] at h⟩, hE⟩
  rw [if_neg hd]; clear hd
  by_cases hd : data = "admin_manage_colors"
  · rw [if_pos hd]; exact ⟨⟨h1, h2, fun h => by simp [preBroken] at h⟩, hE⟩
  rw [if_neg hd]; clear hd
  by_cases hd : data = "admin_view_feedback"
  · rw [if_pos hd]; exact ⟨⟨h1, h2, fun h => by simp [preBroken] at h⟩, hE⟩
  rw [if_neg hd]; clear hd
  by_cases hd : data = "back_to_admin"
  · rw [if_pos hd]; exact ⟨⟨h1, h2, fun h => by simp [preBroken] at h⟩, hE⟩
  rw [if_neg hd]; clear hd
  by_cases hd : data = "admin_export"
  · rw [if_pos hd]; exact ⟨⟨h1, h2, fun h => by simp [preBroken] at h⟩, hE⟩
  rw [if_neg hd]; clear hd
  by_cases hd : data = "admin_low_stock"
  · rw [if_pos hd]; exact ⟨⟨h1, h2, fun h => by simp [preBroken] at h⟩, hE⟩
  rw [if_neg hd]; clear hd
  by_cases hd : data = "admin_add_room"
  · rw [if_pos hd]; exact ⟨⟨h1, h2, fun h => by simp [preBroken] at h⟩, hE⟩
  rw [if_neg hd]; clear hd
  by_cases hd : data = "admin_remove_room"
  · rw [if_pos hd]; exact ⟨⟨h1, h2, fun h => by simp [preBroken] at h⟩, hE⟩
  rw [if_neg hd]; clear hd
  by_cases hd : data = "admin_add_material"
  · rw [if_pos hd]; exact ⟨⟨h1, h2, fun h => by simp [preBroken] at h⟩, hE⟩
  rw [if_neg hd]; clear hd
  by_cases hd : data = "admin_remove_material"
  · rw [if_pos hd]; exact ⟨⟨h1, h2, fun h => by simp [preBroken] at h⟩, hE⟩
  rw [if_neg hd]; clear hd
  by_cases hd : data = "back_to_start"
  · rw [if_pos hd]; exact runStart_inv _ base hE
  rw [if_neg hd]; clear hd
  exact ⟨⟨h1, h2, fun h => by simp [preBroken] at h⟩, hE⟩

theorem add_room_handler_inv (w : World) (base : List EntryRow) (s : String)
    (h1 : draftTotalOK w.draft) (h2 : draftBrokenOK w.draft)
    (hE : EntriesOK base w.store) :
    DraftInv (add_room_handler w s).draft (add_room_handler w s).state ∧
      EntriesOK base (add_room_handler w s).store :=
  ⟨⟨h1, h2, fun h => by simp [add_room_handler, preBroken] at h⟩,
   entriesOK_of_eq (add_room_entries _ _ _ _) hE⟩

theorem remove_room_handler_inv (w : World) (base : List EntryRow) (data : String)
    (h1 : draftTotalOK w.draft) (h2 : draftBrokenOK w.draft)
    (hE : EntriesOK base w.store) :
    DraftInv (remove_room_handler w data).draft (remove_room_handler w data).state ∧
      EntriesOK base (remove_room_handler w data).store := by
  unfold remove_room_handler
  split <;> exact ⟨⟨h1, h2, fun h => by simp [preBroken] at h⟩, hE⟩

theorem add_material_handler_inv (w : World) (base : List EntryRow) (s : String)
    (h1 : draftTotalOK w.draft) (h2 : draftBrokenOK w.draft)
    (hE : EntriesOK base w.store) :
    DraftInv (add_material_handler w s).draft (add_material_handler w s).state ∧
      EntriesOK base (add_material_handler w s).store :=
  ⟨⟨h1, h2, fun h => by simp [add_material_handler, preBroken] at h⟩,
   entriesOK_of_eq (add_material_entries _ _ _ _) hE⟩

theorem remove_material_handler_inv (w : World) (base : List EntryRow) (data : String)
    (h1 : draftTotalOK w.draft) (h2 : draftBrokenOK w.draft)
    (hE : EntriesOK base w.store) :
    DraftInv (remove_material_handler w data).draft
        (remove_material_handler w data).state ∧
      EntriesOK base (remove_material_handler w data).store := by
  unfold remove_material_handler
  split <;> exact ⟨⟨h1, h2, fun h => by simp [preBroken] at h⟩, hE⟩

theorem handle_color_action_inv (w : World) (base : List EntryRow) (data : String)
    (h1 : draftTotalOK w.draft) (h2 : draftBrokenOK w.draft)
    (h3 : preBroken w.state = true → w.draft.broken = none)
    (hE : EntriesOK base w.store) :
    DraftInv (handle_color_action w data).draft (handle_color_action w data).state ∧
      EntriesOK base (handle_color_action w data).store := by
  simp only [handle_color_action]
  by_cases hd : data = "back_to_start"
  · rw [if_pos hd]; exact runStart_inv _ base hE
  rw [if_neg hd]; clear hd
  by_cases hd : data = "color_add"
  · rw [if_pos hd]; exact ⟨⟨h1, h2, fun h => by simp [preBroken] at h⟩, hE⟩
  rw [if_neg hd]; clear hd
  by_cases hd : data = "color_edit"
  · rw [if_pos hd]
    split <;> exact ⟨⟨h1, h2, fun h => by simp [preBroken] at h⟩, hE⟩
  rw [if_neg hd]; clear hd
  by_cases hd : data = "color_delete"
  · rw [if_pos hd]; exact ⟨⟨h1, h2, fun h => by simp [preBroken] at h⟩, hE⟩
  rw [if_neg hd]; clear hd
  by_cases hd : data = "back_to_colors"
  · rw [if_pos hd]; exact ⟨⟨h1, h2, fun h => by simp [preBroken] at h⟩, hE⟩
  rw [if_neg hd]; clear hd
  by_cases hd : pyStarts data "delcolor_" = true
  · rw [if_pos hd]
    split
    · exact ⟨⟨h1, h2, h3⟩, hE⟩
    · exact ⟨⟨h1, h2, fun h => by simp [preBroken] at h⟩, hE⟩
  rw [if_neg hd]; clear hd
  by_cases hd : pyStarts data "editcolor_" = true
  · rw [if_pos hd]
    split
    · exact ⟨⟨h1, h2, h3⟩, hE⟩
    · split <;> exact ⟨⟨h1, h2, fun h => by simp [preBroken] at h⟩, hE⟩
  rw [if_neg hd]; clear hd
  exact ⟨⟨h1, h2, fun h => by simp [preBroken] at h⟩, hE⟩

theorem add_color_handler_inv (w : World) (base : List EntryRow) (s : String)
    (h1 : draftTotalOK w.draft) (h2 : draftBrokenOK w.draft)
    (hE : EntriesOK base w.store) :
    DraftInv (add_color_handler w s).draft (add_color_handler w s).state ∧
      EntriesOK base (add_color_handler w s).store :=
  ⟨⟨h1, h2, fun h => by simp [add_color_handler, preBroken] at h⟩,
   entriesOK_of_eq (add_chair_color_entries _ _ _) hE⟩

theorem edit_color_handler_inv (w : World) (base : List EntryRow) (s : String)
    (h1 : draftTotalOK w.draft) (h2 : draftBrokenOK w.draft)
    (hE : EntriesOK base w.store) :
    DraftInv (edit_color_handler w s).draft (edit_color_handler w s).state ∧
      EntriesOK base (edit_color_handler w s).store := by
  unfold edit_color_handler
  repeat' split
  all_goals exact ⟨⟨h1, h2, fun h => by simp [preBroken] at h⟩, hE⟩

theorem show_room_details_inv (w : World) (base : List EntryRow) (data : String)
    (h1 : draftTotalOK w.draft) (h2 : draftBrokenOK w.draft)
    (hE : EntriesOK base w.store) :
    DraftInv (show_room_details w data).draft (show_room_details w data).state ∧
      EntriesOK base (show_room_details w data).store := by
  unfold show_room_details
  split <;> exact ⟨⟨h1, h2, fun h => by simp [preBroken] at h⟩, hE⟩

/-- One step of the conversation preserves the session invariant and adds
only invariant-respecting entries. -/
theorem step_inv (cfg : Config) (ev : Event) (base : List EntryRow) (w : World)
    (hD : DraftInv w.draft w.state) (hE : EntriesOK base w.store) :
    DraftInv (step cfg w ev).draft (step cfg w ev).state ∧
      EntriesOK base (step cfg w ev).store := by
  obtain ⟨h1, h2, h3⟩ := hD
  obtain ⟨st, d, store, u, now⟩ := w
  simp only at h1 h2 h3 hE
  cases ev with
  | startCmd =>
    simp only [step]
    split
    · exact runStart_inv _ base hE
    · exact ⟨⟨h1, h2, h3⟩, hE⟩
  | cancelCmd =>
    simp only [step]
    split
    · exact ⟨⟨h1, h2, h3⟩, hE⟩
    · exact ⟨emptyDraft_inv _, hE⟩
  | cb data =>
    cases st with
    | SELECT_ROLE => exact select_role_inv _ base data h1 h2 (h3 rfl) hE
    | SELECT_ROOM => exact select_room_inv _ base data h1 h2 (h3 rfl) hE
    | SELECT_MATERIAL => exact select_material_inv _ base data h1 h2 (h3 rfl) hE
    | SELECT_COLOR => exact select_chair_color_inv _ base data h1 h2 (h3 rfl) hE
    | SELECT_CONDITION => exact select_condition_inv _ base data h1 h2 h3 hE
    | CONFIRM_ENTRY => exact confirm_entry_inv _ base data h1 h2 h3 hE
    | ADMIN_MENU => exact handle_admin_action_inv _ base data h1 h2 hE
    | REMOVE_ROOM => exact remove_room_handler_inv _ base data h1 h2 hE
    | REMOVE_MATERIAL => exact remove_material_handler_inv _ base data h1 h2 hE
    | ROOM_DETAILS => exact show_room_details_inv _ base data h1 h2 hE
    | MANAGE_COLORS => exact handle_color_action_inv _ base data h1 h2 h3 hE
    | EDIT_COLOR => exact handle_color_action_inv _ base data h1 h2 h3 hE
    | ADMIN_PIN => exact ⟨⟨h1, h2, h3⟩, hE⟩
    | ENTER_TOTAL => exact ⟨⟨h1, h2, h3⟩, hE⟩
    | ENTER_BROKEN => exact ⟨⟨h1, h2, h3⟩, hE⟩
    | ADD_ROOM => exact ⟨⟨h1, h2, h3⟩, hE⟩
    | ADD_MATERIAL => exact ⟨⟨h1, h2, h3⟩, hE⟩
    | ADD_COLOR => exact ⟨⟨h1, h2, h3⟩, hE⟩
    | ENDED => exact ⟨⟨h1, h2, h3⟩, hE⟩
  | msg s =>
    cases st with
    | ADMIN_PIN => exact verify_admin_pin_inv cfg _ base s h1 h2 hE
    | ENTER_TOTAL => exact enter_total_inv _ base s h1 h2 (h3 rfl) hE
    | ENTER_BROKEN => exact enter_broken_inv _ base s h1 h2 h3 hE
    | ADD_ROOM => exact add_room_handler_inv _ base s h1 h2 hE
    | ADD_MATERIAL => exact add_material_handler_inv _ base s h1 h2 hE
    | ADD_COLOR => exact add_color_handler_inv _ base s h1 h2 hE
    | EDIT_COLOR => exact edit_color_handler_inv _ base s h1 h2 hE
    | SELECT_ROLE => exact ⟨⟨h1, h2, h3⟩, hE⟩
    | SELECT_ROOM => exact ⟨⟨h1, h2, h3⟩, hE⟩
    | SELECT_MATERIAL => exact ⟨⟨h1, h2, h3⟩, hE⟩
    | SELECT_COLOR => exact ⟨⟨h1, h2, h3⟩, hE⟩
    | SELECT_CONDITION => exact ⟨⟨h1, h2, h3⟩, hE⟩
    | CONFIRM_ENTRY => exact ⟨⟨h1, h2, h3⟩, hE⟩
    | ADMIN_MENU => exact ⟨⟨h1, h2, h3⟩, hE⟩
    | REMOVE_ROOM => exact ⟨⟨h1, h2, h3⟩, hE⟩
    | REMOVE_MATERIAL => exact ⟨⟨h1, h2, h3⟩, hE⟩
    | ROOM_DETAILS => exact ⟨⟨h1, h2, h3⟩, hE⟩
    | MANAGE_COLORS => exact ⟨⟨h1, h2, h3⟩, hE⟩
    | ENDED => exact ⟨⟨h1, h2, h3⟩, hE⟩

/-- Trace version of `step_inv`. -/
theorem run_inv (cfg : Config) (base : List EntryRow) (evs : List Event)
    (w : World) (hD : DraftInv w.draft w.state) (hE : EntriesOK base w.store) :
    DraftInv (run cfg w evs).draft (run cfg w evs).state ∧
      EntriesOK base (run cfg w evs).store := by
  induction evs generalizing w with
  | nil => exact ⟨hD, hE⟩
  | cons ev rest ih =>
    have h := step_inv cfg ev base w hD hE
    exact ih (step cfg w ev) h.1 h.2

/-! ## The claims -/

/-- C1: `addEntry` auto-creates the Room row when `roomName` is unseen, but
fails with UnknownMaterial when `materialName` does not exist, and the
write is never partial: on failure the whole store — the auto-created room
row included — is returned exactly as it was (the connection is closed
without commit, rolling the transaction back); on success the room
auto-creation and the entry row are committed together. -/
theorem c1_add_entry_room_vivified_material_required_atomic
    (db : Store) (uid : Int) (rn mn : String) (t b : Int)
    (c loc : String) (cid : Option Int) (now : Int) :
    (lookupMaterial db.materials mn = none →
      add_inventory_entry db uid rn mn t b c loc cid now = (db, false)) ∧
    (∀ m, lookupMaterial db.materials mn = some m →
      (add_inventory_entry db uid rn mn t b c loc cid now).2 = true ∧
      (add_inventory_entry db uid rn mn t b c loc cid now).1.entries =
        db.entries ++ [⟨db.next_entry_id, uid, roomIdOf db rn, m.material_id, cid,
          t, b, t - b, c, loc, now⟩] ∧
      (lookupRoom db.rooms rn = none →
        (add_inventory_entry db uid rn mn t b c loc cid now).1.rooms =
          db.rooms ++ [⟨db.next_room_id, rn, "", ""⟩]) ∧
      (∀ r, lookupRoom db.rooms rn = some r →
        (add_inventory_entry db uid rn mn t b c loc cid now).1.rooms = db.rooms)) :=
  ⟨fun hm => add_entry_fail db uid rn mn t b c loc cid now hm,
   fun m hm => add_entry_success db uid rn mn t b c loc cid now m hm⟩

/-- C1 witness: spec scenario B — an entry against the unknown material
`Unobtainium` in the fresh room `LabA` fails and leaves the store exactly
unchanged (no room row, no entry row). -/
theorem c1_witness :
    add_inventory_entry sampleStore 7 "LabA" "Unobtainium" 10 3 "Neuf" "" none 100 =
      (sampleStore, false) :=
  (c1_add_entry_room_vivified_material_required_atomic sampleStore 7 "LabA"
    "Unobtainium" 10 3 "Neuf" "" none 100).1 (by decide)

/-- C2: over any sequence of user events handled by the conversation state
machine, every entry that the flow persists satisfies
`good = total - broken`, `0 ≤ broken ≤ total` and `total ≥ 0`: any entry of
the final store is an entry the store already held or satisfies the
invariant. -/
theorem c2_flow_persists_only_valid_entries (cfg : Config) (u : UserRow)
    (st0 : Store) (now : Int) (evs : List Event) (e : EntryRow)
    (he : e ∈ (run cfg (initWorld u st0 now) evs).store.entries) :
    e ∈ st0.entries ∨ entryOK e := by
  have h := run_inv cfg st0.entries evs (initWorld u st0 now)
    (emptyDraft_inv _) (fun e' he' => Or.inl he')
  exact h.2 e he

/-- C2 witness: a complete flow (start, role, room, material, total 10,
broken 3, condition, confirm) persists exactly `sampleEntry`, which
satisfies the invariant. -/
theorem c2_witness :
    sampleEntry ∈
      (run sampleCfg (initWorld sampleUser sampleStore 100) sampleTrace).store.entries ∧
    (sampleEntry ∈ sampleStore.entries ∨ entryOK sampleEntry) :=
  ⟨by decide,
   c2_flow_persists_only_valid_entries sampleCfg sampleUser sampleStore 100
     sampleTrace sampleEntry (by decide)⟩

/-- Folding `+ f e` over a list from `0` is the sum of the mapped list. -/
theorem foldl_add_eq_sum (f : EntryRow → Int) (l : List EntryRow) :
    l.foldl (fun a e => a + f e) 0 = (l.map f).sum := by
  suffices h : ∀ a : Int, l.foldl (fun acc e => acc + f e) a = a + (l.map f).sum by
    simpa using h 0
  induction l with
  | nil => intro a; simp
  | cons x xs ih => intro a; simp [ih, add_assoc]

/-- C6: for every state of the entry log (whose totals are non-negative, as
the data model requires), `get_dashboard_stats` returns `totalItems`,
`totalBroken` and `totalGood` equal to the sums of the respective columns,
and `brokenPct = round(100*totalBroken/totalItems, 2)` (`goodPct`
symmetric), both `0` when `totalItems = 0`. -/
theorem c6_dashboard_sums_and_percentages (db : Store) (now : Int)
    (hpos : ∀ e ∈ db.entries, 0 ≤ e.total_count) :
    (get_dashboard_stats db now).total_items =
      (db.entries.map (fun e => e.total_count)).sum ∧
    (get_dashboard_stats db now).total_broken =
      (db.entries.map (fun e => e.broken_count)).sum ∧
    (get_dashboard_stats db now).total_good =
      (db.entries.map (fun e => e.good_count)).sum ∧
    (get_dashboard_stats db now).broken_percentage =
      (if (db.entries.map (fun e => e.total_count)).sum = 0 then 0
       else round2 (100 * (((db.entries.map (fun e => e.broken_count)).sum : Int) : ℚ) /
         (((db.entries.map (fun e => e.total_count)).sum : Int) : ℚ))) ∧
    (get_dashboard_stats db now).good_percentage =
      (if (db.entries.map (fun e => e.total_count)).sum = 0 then 0
       else round2 (100 * (((db.entries.map (fun e => e.good_count)).sum : Int) : ℚ) /
         (((db.entries.map (fun e => e.total_count)).sum : Int) : ℚ))) := by
  have hT := foldl_add_eq_sum (fun e => e.total_count) db.entries
  have hB := foldl_add_eq_sum (fun e => e.broken_count) db.entries
  have hG := foldl_add_eq_sum (fun e => e.good_count) db.entries
  have hsumpos : 0 ≤ (db.entries.map (fun e => e.total_count)).sum :=
    List.sum_nonneg (by
      intro x hx
      rcases List.mem_map.mp hx with ⟨e, he, rfl⟩
      exact hpos e he)
  refine ⟨?_, ?_, ?_, ?_, ?_⟩
  · simpa [get_dashboard_stats, sqlSumTotal] using hT
  · simpa [get_dashboard_stats, sqlSumBroken] using hB
  · simpa [get_dashboard_stats, sqlSumGood] using hG
  · simp only [get_dashboard_stats, sqlSumTotal, sqlSumBroken, hT, hB]
    by_cases h0 : (db.entries.map (fun e => e.total_count)).sum = 0
    · rw [if_neg (by omega), if_pos h0]
    · rw [if_pos (by omega), if_neg h0]
      congr 1
      ring
  · simp only [get_dashboard_stats, sqlSumTotal, sqlSumGood, hT, hG]
    by_cases h0 : (db.entries.map (fun e => e.total_count)).sum = 0
    · rw [if_neg (by omega), if_pos h0]
    · rw [if_pos (by omega), if_neg h0]
      congr 1
      ring

/-- C6 witness: the percentage formula at a concrete one-entry store. -/
theorem c6_witness :
    (get_dashboard_stats scenarioCStore 100).broken_percentage =
      (if (scenarioCStore.entries.map (fun e => e.total_count)).sum = 0 then 0
       else round2 (100 * (((scenarioCStore.entries.map (fun e => e.broken_count)).sum : Int) : ℚ) /
         (((scenarioCStore.entries.map (fun e => e.total_count)).sum : Int) : ℚ))) :=
  (c6_dashboard_sums_and_percentages scenarioCStore 100 (by decide)).2.2.2.1

/-- C7 (code bug): `get_low_stock_items` is supposed to flag every
(room, material) group with `avgBroken/avgTotal*100 > 20` or
`avgTotal < threshold`, ordered by broken percentage descending.  A group
with average total 0 (one entry `total = 0, broken = 0`, enterable through
the normal flow) is flagged by the threshold disjunct, but its SQL broken
percentage is NULL (division by zero) and the Python `round(None, 1)` on
the fetched row raises TypeError, so the call returns nothing (`none`).
On spec scenario C (`avgTotal = 5, avgBroken = 0`, threshold 10) the group
is flagged and returned as the claim says. -/
theorem c7_low_stock_zero_total_group_crashes :
    get_low_stock_items zeroTotalStore 10 = none ∧
    get_low_stock_items scenarioCStore 10 =
      some [⟨"RoomX", "MaterialY", 5, 0, 0⟩] := by
  constructor
  · have hg : groupRows (lowJoin zeroTotalStore) ("RoomX", "MaterialY") =
        [⟨"RoomX", "MaterialY", 0, 0⟩] := by decide
    have ha : avgTotal (lowJoin zeroTotalStore) ("RoomX", "MaterialY") = 0 := by
      unfold avgTotal; rw [hg]; norm_num
    have hbp : brokenPct (lowJoin zeroTotalStore) ("RoomX", "MaterialY") = none := by
      unfold brokenPct; rw [ha]; simp
    have hh : lowHaving 10 (lowJoin zeroTotalStore) ("RoomX", "MaterialY") = true := by
      unfold lowHaving
      rw [hbp, ha]
      norm_num
    have hk : firstKeys ((lowJoin zeroTotalStore).map (fun r => (r.room, r.material))) =
        [("RoomX", "MaterialY")] := by decide
    simp only [get_low_stock_items, hk]
    simp only [List.filter, hh, List.insertionSort, List.orderedInsert, List.mapM,
      List.mapM.loop, hbp]
    rfl
  · have hg : groupRows (lowJoin scenarioCStore) ("RoomX", "MaterialY") =
        [⟨"RoomX", "MaterialY", 5, 0⟩] := by decide
    have ha : avgTotal (lowJoin scenarioCStore) ("RoomX", "MaterialY") = 5 := by
      unfold avgTotal; rw [hg]; norm_num
    have hb : avgBroken (lowJoin scenarioCStore) ("RoomX", "MaterialY") = 0 := by
      unfold avgBroken; rw [hg]; norm_num
    have hbp : brokenPct (lowJoin scenarioCStore) ("RoomX", "MaterialY") = some 0 := by
      unfold brokenPct; rw [ha, hb]
      rw [if_neg (by norm_num : ¬((5 : ℚ) = 0))]
      norm_num
    have hh : lowHaving 10 (lowJoin scenarioCStore) ("RoomX", "MaterialY") = true := by
      unfold lowHaving
      rw [hbp, ha]
      norm_num
    have hk : firstKeys ((lowJoin scenarioCStore).map (fun r => (r.room, r.material))) =
        [("RoomX", "MaterialY")] := by decide
    have hr5 : round1 (5 : ℚ) = 5 := by norm_num [round1, pyRound]
    have hr0 : round1 (0 : ℚ) = 0 := by norm_num [round1, pyRound]
    simp only [get_low_stock_items, hk]
    simp only [List.filter, hh, List.insertionSort, List.orderedInsert, List.mapM,
      List.mapM.loop, hbp, ha, hb, hr5, hr0]
    rfl

/-- C8 counterexample: the claim says a stale discrete selection is a no-op
that never advances; but in `ColorSelect` the stale color token
`chaircolor_99` (no color with id 99 exists) changes the draft and
advances the session to `EnterTotal`. -/
theorem c8_stale_color_counterexample :
    (step sampleCfg sampleColorWorld (.cb "chaircolor_99")).state ≠
      ConvState.SELECT_COLOR ∧
    (step sampleCfg sampleColorWorld (.cb "chaircolor_99")).draft ≠
      sampleColorWorld.draft ∧
    (step sampleCfg sampleColorWorld (.cb "chaircolor_99")).state =
      ConvState.ENTER_TOTAL := by
  refine ⟨by decide, by decide, by decide⟩

/-- C8 amended: stale discrete selections are not uniformly no-ops — in
`ColorSelect` a well-formed color token whose id is not in the ColorOption
set is accepted: the unknown id is stored in the draft with the display
name `Inconnue`, and the session advances to `EnterTotal`. -/
theorem c8_stale_color_accepted_and_advances (cfg : Config) (w : World)
    (data : String) (i : Int) (room : String)
    (hst : w.state = .SELECT_COLOR)
    (hdata1 : data ≠ "back_to_materials") (hdata2 : data ≠ "chaircolor_none")
    (hparse : toIntPy (pyReplace data "chaircolor_") = some i)
    (hstale : ∀ c ∈ get_chair_colors w.store, c.color_id ≠ i)
    (hroom : w.draft.selected_room = some room) :
    step cfg w (.cb data) =
      { w with
          draft :=
            { w.draft with color_id := some (some i), color_name := some "Inconnue" },
          state := .ENTER_TOTAL } := by
  obtain ⟨st, d, store, u, now⟩ := w
  simp only at hst hroom hstale ⊢
  subst hst
  simp only [step, stepCb, select_chair_color]
  rw [if_neg hdata1, if_neg hdata2]
  simp only [hparse]
  have hf : (get_chair_colors store).find? (fun c => c.color_id == i) = none :=
    List.find?_eq_none.mpr (fun c hc => by simpa using hstale c hc)
  simp only [hf, Option.map_none', Option.getD_none]
  rw [if_neg (by simp [hroom])]

/-- C8 amended witness: the concrete stale selection `chaircolor_99`. -/
theorem c8_amended_witness :
    step sampleCfg sampleColorWorld (.cb "chaircolor_99") =
      { sampleColorWorld with
          draft :=
            { sampleColorWorld.draft with
                color_id := some (some 99), color_name := some "Inconnue" },
          state := .ENTER_TOTAL } :=
  c8_stale_color_accepted_and_advances sampleCfg sampleColorWorld "chaircolor_99"
    99 "Salle" rfl (by decide) (by decide) (by decide) (by decide) rfl

/-- C9 counterexample: the export of `bot_final_complete.py` has no
`Location` column — its header is the 8-column list, not the 9-column list
the claim fixes. -/
theorem c9_complete_export_lacks_location :
    (export_to_csv_complete sampleStore).head? =
      some ["User", "Room", "Material", "Total", "Broken", "Good", "Condition",
            "Timestamp"] ∧
    (["User", "Room", "Material", "Total", "Broken", "Good", "Condition",
      "Timestamp"] : List String) ≠
      ["User", "Room", "Material", "Total", "Broken", "Good", "Condition",
       "Location", "Timestamp"] :=
  ⟨rfl, by decide⟩

/-- C9 amended: the export of `bot_final_improved_1.py` has the fixed
header User, Room, Material, Total, Broken, Good, Condition, Location,
Timestamp and its rows are the entry log joined with room/material/user
display names ordered by timestamp descending (a sorted permutation of the
join); the `bot_final_complete.py` variant emits the same join in the same
order but omits the Location column from its 8-column header. -/
theorem c9_export_format_by_variant (db : Store) :
    (export_to_csv db).head? =
      some ["User", "Room", "Material", "Total", "Broken", "Good", "Condition",
            "Location", "Timestamp"] ∧
    List.Sorted tsDesc (export_rows db) ∧
    (export_rows db).Perm (exportJoin db) ∧
    (export_to_csv_complete db).head? =
      some ["User", "Room", "Material", "Total", "Broken", "Good", "Condition",
            "Timestamp"] :=
  ⟨rfl, List.sorted_insertionSort tsDesc (exportJoin db),
   List.perm_insertionSort tsDesc (exportJoin db), rfl⟩

/-- C10 (implicit claim): the store-level `addEntry` performs no range
validation at all — for every pair of integers `total` and `broken`
(including `broken > total` and `broken < 0`), given an existing material
it returns success and persists an entry with `good = total - broken`,
which may be negative. -/
theorem c10_store_add_entry_no_range_validation (db : Store) (uid : Int)
    (rn mn : String) (t b : Int) (c loc : String) (cid : Option Int)
    (now : Int) (m : MaterialRow)
    (hm : lookupMaterial db.materials mn = some m) :
    (add_inventory_entry db uid rn mn t b c loc cid now).2 = true ∧
    (add_inventory_entry db uid rn mn t b c loc cid now).1.entries =
      db.entries ++ [⟨db.next_entry_id, uid, roomIdOf db rn, m.material_id, cid,
        t, b, t - b, c, loc, now⟩] :=
  ⟨(add_entry_success db uid rn mn t b c loc cid now m hm).1,
   (add_entry_success db uid rn mn t b c loc cid now m hm).2.1⟩

/-- C3: a material selection in `MaterialSelect` (with the room of the
draft present, as it is on every reachable path) moves the session to
`ColorSelect` iff the selected material requires a color (the hard-coded
chair test realizing the `requiresColor` flag) and at least one
ColorOption exists; otherwise it moves to `EnterTotal`. -/
theorem c3_material_color_branch (cfg : Config) (w : World) (data room : String)
    (hst : w.state = .SELECT_MATERIAL) (hdata : data ≠ "back_to_rooms")
    (hroom : w.draft.selected_room = some room) :
    (step cfg w (.cb data)).state =
      (if requiresColor (pyReplace data "material_") = true ∧
          get_chair_colors w.store ≠ [] then ConvState.SELECT_COLOR
       else ConvState.ENTER_TOTAL) := by
  obtain ⟨st, d, store, u, now⟩ := w
  simp only at hst hroom
  subst hst
  simp only [step, stepCb, select_material]
  rw [if_neg hdata]
  have hr : ¬(d.selected_room = none) := by simp [hroom]
  split <;> rfl

/-- C3 witness: selecting `Chaises` with one color configured branches to
the color screen. -/
theorem c3_witness :
    (step sampleCfg sampleMaterialWorld (.cb "material_Chaises")).state =
      (if requiresColor (pyReplace "material_Chaises" "material_") = true ∧
          get_chair_colors sampleMaterialWorld.store ≠ [] then ConvState.SELECT_COLOR
       else ConvState.ENTER_TOTAL) :=
  c3_material_color_branch sampleCfg sampleMaterialWorld "material_Chaises" "Salle"
    rfl (by decide) rfl

/-- C4: at `ConfirmEntry` with a complete draft, choosing "stay" persists
the entry; on success every draft field except `selectedRoom` is cleared,
`selectedRoom` is kept as it was, and the session returns to
`MaterialSelect`; on `addEntry` failure the session ends (Terminal) with
the draft cleared. -/
theorem c4_stay_keeps_room_clears_rest (cfg : Config) (w : World)
    (room material : String) (t b : Int) (cond : String)
    (hst : w.state = .CONFIRM_ENTRY)
    (hroom : w.draft.selected_room = some room)
    (hmat : w.draft.selected_material = some material)
    (htot : w.draft.total = some t) (hbrk : w.draft.broken = some b)
    (hcond : w.draft.condition = some cond) :
    ((add_inventory_entry w.store w.user.user_id room material t b cond ""
        (w.draft.color_id.getD none) w.now).2 = true →
      step cfg w (.cb "confirm_stay") =
        { w with
            store := (add_inventory_entry w.store w.user.user_id room material t b
              cond "" (w.draft.color_id.getD none) w.now).1,
            draft := { emptyDraft with selected_room := some room },
            state := .SELECT_MATERIAL }) ∧
    ((add_inventory_entry w.store w.user.user_id room material t b cond ""
        (w.draft.color_id.getD none) w.now).2 = false →
      step cfg w (.cb "confirm_stay") =
        { w with
            store := (add_inventory_entry w.store w.user.user_id room material t b
              cond "" (w.draft.color_id.getD none) w.now).1,
            draft := emptyDraft, state := .ENDED }) := by
  obtain ⟨st, d, store, u, now⟩ := w
  simp only at hst hroom hmat htot hbrk hcond ⊢
  subst hst
  constructor <;> intro hres <;>
    simp only [step, stepCb, confirm_entry] <;>
    simp only [hroom, hmat, htot, hbrk, hcond] <;>
    simp [hres]

/-- C4 witness: the success branch at a concrete confirmation screen. -/
theorem c4_witness :
    step sampleCfg sampleConfirmWorld (.cb "confirm_stay") =
      { sampleConfirmWorld with
          store := (add_inventory_entry sampleConfirmWorld.store 7 "Salle" "Tables"
            10 3 "Neuf" "" none 100).1,
          draft := { emptyDraft with selected_room := some "Salle" },
          state := .SELECT_MATERIAL } :=
  (c4_stay_keeps_room_clears_rest sampleCfg sampleConfirmWorld "Salle" "Tables"
    10 3 "Neuf" rfl rfl rfl rfl rfl rfl).1 (by decide)

/-- C5: in `EnterBroken`, a submitted integer `b` advances to
`ConditionSelect` (storing `b`) iff `0 ≤ b ≤ total`; any other input —
non-integer, negative, or above the stored total — leaves the whole
session (state, draft including the stored total, store) unchanged. -/
theorem c5_enter_broken_validation (cfg : Config) (w : World) (s : String)
    (t : Int) (hst : w.state = .ENTER_BROKEN) (htot : w.draft.total = some t) :
    (∀ b, toIntPy s = some b → 0 ≤ b → b ≤ t →
      step cfg w (.msg s) =
        { w with draft := { w.draft with broken := some b },
                 state := .SELECT_CONDITION }) ∧
    ((∀ b, toIntPy s = some b → b < 0 ∨ t < b) → step cfg w (.msg s) = w) := by
  obtain ⟨st, d, store, u, now⟩ := w
  simp only at hst htot ⊢
  subst hst
  constructor
  · intro b hb h0 hbt
    simp only [step, stepMsg, enter_broken, hb, htot]
    rw [if_neg (by omega : ¬(b < 0 ∨ t < b))]
  · intro hinv
    cases hb : toIntPy s with
    | none => simp only [step, stepMsg, enter_broken, hb]
    | some b =>
      simp only [step, stepMsg, enter_broken, hb, htot]
      rw [if_pos (hinv b hb)]

/-- C5 witness: spec scenario E — submitting `12` with `total = 10` leaves
the session exactly as it was. -/
theorem c5_witness :
    step sampleCfg sampleBrokenWorld (.msg "12") = sampleBrokenWorld :=
  (c5_enter_broken_validation sampleCfg sampleBrokenWorld "12" 10 rfl rfl).2
    (by
      intro b hb
      rw [show toIntPy "12" = some 12 from by decide] at hb
      injection hb with hb
      omega)

/-- C10 witness: `total = 5, broken = 7` is accepted and persisted with
`good = -2`. -/
theorem c10_witness :
    (add_inventory_entry sampleStore 7 "Salle" "Tables" 5 7 "Neuf" "" none 100).2 =
      true ∧
    (add_inventory_entry sampleStore 7 "Salle" "Tables" 5 7 "Neuf" "" none 100).1.entries =
      sampleStore.entries ++ [⟨1, 7, 1, 1, none, 5, 7, -2, "Neuf", "", 100⟩] :=
  c10_store_add_entry_no_range_validation sampleStore 7 "Salle" "Tables" 5 7
    "Neuf" "" none 100 ⟨1, "Tables", "📋", ""⟩ (by decide)

end InventoryBot
